import Mathlib

/-!
Shallow embedding of `src/SolarObservatory/solar_observatory.py`.

The embedding covers the core pipeline: per-channel normalization
(`download_hmi_nrt` lines 80-94, `download_and_process` lines 128-147),
RGB interleaving (`create_rgb_image`), container assembly and serialization
(`create_container_file`), and the top-level orchestration (`main`).

Modelling conventions:
* numpy float64 samples are an `FVal`: a finite rational, NaN, or an infinity;
  the IEEE behavior of the specific operations used by the code (division by
  zero, `np.clip`, multiplication by 255, the uint8 cast) is spelled out per
  operation.
* `scipy.ndimage.zoom` (cubic resampling) is an external numeric routine and is
  passed in as an abstract `resize` function; the surrounding steps (clean,
  scale, cast, crop, flatten) are embedded exactly.
* The file system is a pair of optional byte lists (`solar.dat`,
  `timestamp.txt`); Python's `with open(..., 'w')` truncate-on-open is modelled
  by the state transition happening only on the success path of the pure
  serializer, which mirrors the source's ordering (both composites are built
  before `open` is reached).
* Byte strings are `List Nat` of byte values.
-/

/-- Channel labels: in the source `wavelength_order = [131, 171, 193, 304, 1700, 'HMI']`
is a heterogeneous list of five ints and one string; here it is a six-value type. -/
inductive Label where
  | w131
  | w171
  | w193
  | w304
  | w1700
  | hmi
deriving DecidableEq, Repr

/-- A timezone-free view of the `datetime` fields that `strftime('%Y-%m-%d %H:%M:%S')` reads. -/
structure Ts where
  year : Nat
  month : Nat
  day : Nat
  hour : Nat
  minute : Nat
  second : Nat
deriving DecidableEq, Repr

/-- Decimal ASCII digits of `n`, most significant first (codes 48..57), as `str(n)`. -/
def asciiDigits (n : Nat) : List Nat := (Nat.digits 10 n).reverse.map (fun d => d + 48)

/-- Zero-padded two-digit field, as strftime `%m`, `%d`, `%H`, `%M`, `%S`. -/
def pad2 (n : Nat) : List Nat := if n < 10 then [48, n + 48] else asciiDigits n

/-- Embeds `timestamp.strftime('%Y-%m-%d %H:%M:%S')` as ASCII byte codes
(45 is the hyphen, 32 the space, 58 the colon). -/
def formatTs (t : Ts) : List Nat :=
  asciiDigits t.year ++ [45] ++ pad2 t.month ++ [45] ++ pad2 t.day ++ [32] ++
    pad2 t.hour ++ [58] ++ pad2 t.minute ++ [58] ++ pad2 t.second

/-- Field ranges guaranteed by Python `datetime` (year 1000..9999 keeps `%Y` at
four digits on every platform; sub-fields below 100 keep `%m` etc. at two). -/
def ValidTs (t : Ts) : Prop :=
  1000 ≤ t.year ∧ t.year ≤ 9999 ∧ t.month ≤ 99 ∧ t.day ≤ 99 ∧
    t.hour ≤ 99 ∧ t.minute ≤ 99 ∧ t.second ≤ 99

instance (t : Ts) : Decidable (ValidTs t) := by
  unfold ValidTs; infer_instance

/-- Embeds `struct.pack('<H', n)`: two little-endian bytes. -/
def le16 (n : Nat) : List Nat := [n % 256, n / 256 % 256]

/-- One download result tuple `(data, timestamp, wavelength, width, height)`;
`data` is `none` for a failed acquisition.  (A failed `download_and_process`
actually returns a 7-tuple, but only the first three slots of a failed record
are ever inspected, and only successful records reach the serializer.) -/
structure DRecord where
  data : Option (List Nat)
  ts : Ts
  label : Label
  width : Nat
  height : Nat
deriving DecidableEq, Repr

/-- The element-interleaving performed by the three strided slice assignments
`rgb_data[0::3] = r; rgb_data[1::3] = g; rgb_data[2::3] = b`. -/
def interleave3 : List Nat → List Nat → List Nat → List Nat
  | r :: rs, g :: gs, b :: bs => r :: g :: b :: interleave3 rs gs bs
  | _, _, _ => []

/-- Embeds `create_rgb_image` (lines 154-165). -/
def createRgbImage (r g b : List Nat) : Except String (List Nat) :=
  if r.length ≠ g.length then .error "All channels must have the same length"
  else if g.length ≠ b.length then .error "All channels must have the same length"
  else .ok (interleave3 r g b)

/-- Embeds the numpy slice `l[::3]`: every third element starting at the head. -/
def stride3 : List Nat → List Nat
  | [] => []
  | [x] => [x]
  | [x, _] => [x]
  | x :: _ :: _ :: rest => x :: stride3 rest

/-- Embeds `successful = [d for d in downloads if d[0] is not None]` (line 170). -/
def successful (dl : List DRecord) : List DRecord := dl.filter (fun d => d.data.isSome)

/-- Embeds `download_dict` (line 172) followed by lookup: a dict
comprehension keeps the LAST record inserted per key, hence `find?` on the
reversed list. -/
def downloadDict (dl : List DRecord) (l : Label) : Option DRecord :=
  (successful dl).reverse.find? (fun d => d.label == l)

/-- Embeds `wavelength_order` (line 171). -/
def wavelengthOrder : List Label := [.w131, .w171, .w193, .w304, .w1700, .hmi]

/-- The zero-filled substitute record built on lines 179-180. -/
def fallbackRecord (ts : Ts) (l : Label) : DRecord :=
  ⟨some (List.replicate (2048 * 2048) 0), ts, l, 2048, 2048⟩

/-- Embeds `ordered_downloads` (lines 174-180): one record per label in fixed order,
the dict entry when present, the zero-filled fallback otherwise. -/
def orderedDownloads (ts : Ts) (dl : List DRecord) : List DRecord :=
  wavelengthOrder.map (fun l => (downloadDict dl l).getD (fallbackRecord ts l))

/-- Projects `d[0]`: the data buffer of a record (all records reaching this point carry one). -/
def recData (d : DRecord) : List Nat := d.data.getD []

/-- The data buffer the serializer uses for label `l`. -/
def channelData (ts : Ts) (dl : List DRecord) (l : Label) : List Nat :=
  recData ((downloadDict dl l).getD (fallbackRecord ts l))

/-- The byte layout written on lines 195-206: version byte 2, the 19 timestamp
bytes, then per composite a little-endian uint16 width and height and the RGB data. -/
def containerBytes (ts : Ts) (rgb0 rgb1 : List Nat) : List Nat :=
  [2] ++ formatTs ts ++ (le16 2048 ++ le16 2048 ++ rgb0) ++ (le16 2048 ++ le16 2048 ++ rgb1)

/-- Embeds `create_container_file` (lines 168-206) as a pure function from inputs to
the artifact bytes, or the error raised while building a composite. -/
def createContainerFile (ts : Ts) (dl : List DRecord) : Except String (List Nat) :=
  let od := orderedDownloads ts dl
  match createRgbImage (recData (od.getD 0 (fallbackRecord ts .hmi)))
      (recData (od.getD 1 (fallbackRecord ts .hmi)))
      (recData (od.getD 2 (fallbackRecord ts .hmi))) with
  | .error e => .error e
  | .ok rgb0 =>
    match createRgbImage (recData (od.getD 3 (fallbackRecord ts .hmi)))
        (recData (od.getD 4 (fallbackRecord ts .hmi)))
        (recData (od.getD 5 (fallbackRecord ts .hmi))) with
    | .error e => .error e
    | .ok rgb1 => .ok (containerBytes ts rgb0 rgb1)

/-- The two files the program writes. -/
structure FS where
  solarDat : Option (List Nat)
  timestampTxt : Option (List Nat)
deriving DecidableEq, Repr

/-- Embeds `create_container_file` with its file effect: in the source both composites
are fully built (lines 183-193) before `open(container_path, 'wb')` on line 195,
so an interleaving error propagates with the file system untouched. -/
def createContainerFileFS (ts : Ts) (dl : List DRecord) (fs : FS) : FS × Except String Unit :=
  match createContainerFile ts dl with
  | .error e => (fs, .error e)
  | .ok bytes => ({ fs with solarDat := some bytes }, .ok ())

/-- Embeds `main` (lines 209-233) downstream of the acquisitions: `hmi` is the result of
`download_hmi_nrt` (`none` models `hmi_data is None`), `auxDl` the collected
auxiliary results in completion order. -/
def mainModel (fs : FS) (hmi : Option (List Nat × Ts × Nat × Nat)) (auxDl : List DRecord) :
    FS × Except String Unit :=
  match hmi with
  | none => (fs, .error "Failed to download HMI NRT data")
  | some (hdata, hts, hw, hh) =>
    let allDownloads := auxDl ++ [⟨some hdata, hts, .hmi, hw, hh⟩]
    match createContainerFileFS hts allDownloads fs with
    | (fs2, .error e) => (fs2, .error e)
    | (fs2, .ok _) => ({ fs2 with timestampTxt := some (formatTs hts) }, .ok ())

/-- A numpy float64 sample: a finite value (modelled as a rational), NaN, or an infinity. -/
inductive FVal where
  | fin : ℚ → FVal
  | nan : FVal
  | pinf : FVal
  | ninf : FVal
deriving DecidableEq

/-- Finiteness of a sample. -/
def FVal.isFinite : FVal → Bool
  | .fin _ => true
  | _ => false

/-- Embeds `np.nan_to_num(x, nan=0.0, posinf=0.0, neginf=0.0)` on one sample. -/
def nanToNum : FVal → ℚ
  | .fin q => q
  | _ => 0

/-- Models IEEE division of the two finite floats `(x - vmin)` and `(vmax - vmin)`:
a zero denominator gives NaN for 0/0 and a signed infinity otherwise (numpy only
warns on this, and the program suppresses warnings). -/
def fdivQ (a b : ℚ) : FVal :=
  if b = 0 then (if a = 0 then .nan else if 0 < a then .pinf else .ninf)
  else .fin (a / b)

/-- Embeds `np.clip(x, 0, 1)`: NaN propagates, infinities clamp to the bounds. -/
def fclip01 : FVal → FVal
  | .fin q => .fin (max 0 (min 1 q))
  | .nan => .nan
  | .pinf => .fin 1
  | .ninf => .fin 0

/-- Scales the clipped value by 255. -/
def fmul255 : FVal → FVal
  | .fin q => .fin (q * 255)
  | v => v

/-- Embeds `.astype(np.uint8)` on a clipped-scaled sample (range [0, 255] or NaN):
the C cast truncates toward zero, which on this range is the floor; the cast of
a non-finite value produces 0 on the platform the program runs on. -/
def toU8 : FVal → Nat
  | .fin q => (⌊q⌋).toNat
  | _ => 0

/-- One sample through `np.clip((x - vmin) / (vmax - vmin), 0, 1)` and
`(... * 255).astype(np.uint8)`. -/
def normalizeSample (vmin vmax q : ℚ) : Nat :=
  toU8 (fmul255 (fclip01 (fdivQ (q - vmin) (vmax - vmin))))

/-- Applies `np.nan_to_num` over a whole grid. -/
def cleanGrid (g : List (List FVal)) : List (List ℚ) := g.map (fun row => row.map nanToNum)

/-- Embeds `arr.min()` of a flattened nonempty array (the 0 default is never reached:
the code returns early on `size == 0`). -/
def listMin : List ℚ → ℚ
  | [] => 0
  | x :: xs => xs.foldl min x

/-- Embeds `arr.max()` of a flattened nonempty array. -/
def listMax : List ℚ → ℚ
  | [] => 0
  | x :: xs => xs.foldl max x

/-- Embeds `vmin = data.min()` computed AFTER `np.nan_to_num` (lines 129, 133). -/
def gridVmin (g : List (List FVal)) : ℚ := listMin (cleanGrid g).flatten

/-- Embeds `vmax = data.max()` computed AFTER `np.nan_to_num` (lines 129, 134). -/
def gridVmax (g : List (List FVal)) : ℚ := listMax (cleanGrid g).flatten

/-- Lines 129-136: clean, take per-image min/max, clip-scale and cast each sample. -/
def normalizeGrid (g : List (List FVal)) : List (List Nat) :=
  (cleanGrid g).map (fun row => row.map (normalizeSample (gridVmin g) (gridVmax g)))

/-- Embeds `resized[:2048, :2048]` (lines 88 and 141). -/
def crop2048 (g : List (List Nat)) : List (List Nat) :=
  (g.take 2048).map (fun row => row.take 2048)

/-- Embeds `arr.flatten()` of a 2D row-major grid. -/
def gridFlat (g : List (List Nat)) : List Nat := g.flatten

/-- Embeds `arr.shape[1]` of a 2D grid (the common row length). -/
def rowWidth (g : List (List Nat)) : Nat :=
  match g with
  | [] => 0
  | row :: _ => row.length

/-- Embeds `np.fliplr`: reverse every row.  The SOURCE never applies this; it exists to
state what left-right mirroring would produce. -/
def fliplr (g : List (List Nat)) : List (List Nat) := g.map List.reverse

/-- Embeds `download_and_process` from the decode boundary on (lines 128-147): the
fetched, decoded grid comes in; `resize` abstracts `scipy.ndimage.zoom(-, -, order=3)`.
Returns `none` exactly when the code returns a failed record, `some` with the
flattened data and `shape[1]`, `shape[0]` otherwise.  No numpy operation in this
region raises, so a flat image (vmax = vmin) proceeds through a 0/0 division. -/
def processAux (resize : List (List Nat) → List (List Nat)) (g : List (List FVal)) :
    Option (List Nat × Nat × Nat) :=
  if (cleanGrid g).flatten.length = 0 then none
  else
    let resized := crop2048 (resize (normalizeGrid g))
    some (gridFlat resized, rowWidth resized, resized.length)

/-- HMI scaling (lines 80-83): fixed calibrated range `vmin, vmax = -1500, 1500`. -/
def hmiNormalize8 (g : List (List FVal)) : List (List Nat) :=
  (cleanGrid g).map (fun row => row.map (normalizeSample (-1500) 1500))

/-- Embeds `download_hmi_nrt` from the decode boundary on (lines 80-94): scale with the
fixed range, resize (abstract), crop, and return the flattened data with
`shape[1]` and `shape[0]`.  The source applies no mirroring between the crop on
line 88 and the return on line 94. -/
def hmiProcess (resize : List (List Nat) → List (List Nat)) (g : List (List FVal)) :
    List Nat × Nat × Nat :=
  let resized := crop2048 (resize (hmiNormalize8 g))
  (gridFlat resized, rowWidth resized, resized.length)

/-- Holds when `dl` has a successful record with label `l` and data `d`. -/
def HasSucc (dl : List DRecord) (l : Label) (d : List Nat) : Prop :=
  ∃ r ∈ dl, r.label = l ∧ r.data = some d

/-! ### Interleaving lemmas -/

lemma interleave3_getElem (r g b : List Nat) (h1 : r.length = g.length)
    (h2 : g.length = b.length) :
    ∀ i, (interleave3 r g b)[3 * i]? = r[i]? ∧ (interleave3 r g b)[3 * i + 1]? = g[i]? ∧
      (interleave3 r g b)[3 * i + 2]? = b[i]? := by
  induction r generalizing g b with
  | nil =>
    cases g with
    | nil =>
      cases b with
      | nil => intro i; simp [interleave3]
      | cons z zs => simp at h2
    | cons y ys => simp at h1
  | cons x xs ih =>
    cases g with
    | nil => simp at h1
    | cons y ys =>
      cases b with
      | nil => simp at h2
      | cons z zs =>
        intro i
        cases i with
        | zero => simp [interleave3]
        | succ n =>
          have hmul : 3 * (n + 1) = 3 * n + 1 + 1 + 1 := by ring
          have := ih ys zs (by simpa using h1) (by simpa using h2) n
          simp only [interleave3, hmul, List.getElem?_cons_succ]
          exact this

lemma interleave3_length (r g b : List Nat) (h1 : r.length = g.length)
    (h2 : g.length = b.length) : (interleave3 r g b).length = 3 * r.length := by
  induction r generalizing g b with
  | nil =>
    cases g with
    | nil =>
      cases b with
      | nil => simp [interleave3]
      | cons z zs => simp at h2
    | cons y ys => simp at h1
  | cons x xs ih =>
    cases g with
    | nil => simp at h1
    | cons y ys =>
      cases b with
      | nil => simp at h2
      | cons z zs =>
        have := ih ys zs (by simpa using h1) (by simpa using h2)
        simp [interleave3, this]
        ring

lemma stride3_cons2 (y z : Nat) (L : List Nat) :
    stride3 (y :: z :: L) = y :: stride3 (L.drop 1) := by
  cases L <;> rfl

lemma stride3_cons1 (z : Nat) (L : List Nat) :
    stride3 (z :: L) = z :: stride3 (L.drop 2) := by
  match L with
  | [] => rfl
  | [a] => rfl
  | a :: b :: L2 => rfl

lemma stride3_interleave_r (r g b : List Nat) (h1 : r.length = g.length)
    (h2 : g.length = b.length) : stride3 (interleave3 r g b) = r := by
  induction r generalizing g b with
  | nil =>
    cases g with
    | nil =>
      cases b with
      | nil => rfl
      | cons z zs => simp at h2
    | cons y ys => simp at h1
  | cons x xs ih =>
    cases g with
    | nil => simp at h1
    | cons y ys =>
      cases b with
      | nil => simp at h2
      | cons z zs =>
        have := ih ys zs (by simpa using h1) (by simpa using h2)
        rw [show interleave3 (x :: xs) (y :: ys) (z :: zs) =
          x :: y :: z :: interleave3 xs ys zs from rfl, stride3_cons1]
        simp [this]

lemma stride3_interleave_g (r g b : List Nat) (h1 : r.length = g.length)
    (h2 : g.length = b.length) : stride3 ((interleave3 r g b).drop 1) = g := by
  induction r generalizing g b with
  | nil =>
    cases g with
    | nil =>
      cases b with
      | nil => rfl
      | cons z zs => simp at h2
    | cons y ys => simp at h1
  | cons x xs ih =>
    cases g with
    | nil => simp at h1
    | cons y ys =>
      cases b with
      | nil => simp at h2
      | cons z zs =>
        have := ih ys zs (by simpa using h1) (by simpa using h2)
        rw [show interleave3 (x :: xs) (y :: ys) (z :: zs) =
          x :: y :: z :: interleave3 xs ys zs from rfl]
        rw [List.drop_one, List.tail_cons, stride3_cons2]
        simpa [List.drop_one] using this

lemma stride3_interleave_b (r g b : List Nat) (h1 : r.length = g.length)
    (h2 : g.length = b.length) : stride3 ((interleave3 r g b).drop 2) = b := by
  induction r generalizing g b with
  | nil =>
    cases g with
    | nil =>
      cases b with
      | nil => rfl
      | cons z zs => simp at h2
    | cons y ys => simp at h1
  | cons x xs ih =>
    cases g with
    | nil => simp at h1
    | cons y ys =>
      cases b with
      | nil => simp at h2
      | cons z zs =>
        have := ih ys zs (by simpa using h1) (by simpa using h2)
        rw [show interleave3 (x :: xs) (y :: ys) (z :: zs) =
          x :: y :: z :: interleave3 xs ys zs from rfl]
        rw [show (x :: y :: z :: interleave3 xs ys zs).drop 2 =
          z :: interleave3 xs ys zs from rfl, stride3_cons1]
        simp [this]

lemma createRgbImage_ok (r g b : List Nat) (h1 : r.length = g.length)
    (h2 : g.length = b.length) : createRgbImage r g b = .ok (interleave3 r g b) := by
  simp [createRgbImage, h1, h2]

/-- C8: `create_rgb_image` succeeds exactly when the three channel buffers have
the same length; any mismatch raises the hard error instead of producing output. -/
theorem C8_rgb_group_length_check (r g b : List Nat) :
    ((createRgbImage r g b).isOk = true ↔ r.length = g.length ∧ g.length = b.length) ∧
    (¬ (r.length = g.length ∧ g.length = b.length) →
      createRgbImage r g b = .error "All channels must have the same length") := by
  constructor
  · constructor
    · intro h
      by_cases h1 : r.length = g.length
      · by_cases h2 : g.length = b.length
        · exact ⟨h1, h2⟩
        · simp [createRgbImage, h1, h2, Except.isOk, Except.toBool] at h
      · simp [createRgbImage, h1, Except.isOk, Except.toBool] at h
    · rintro ⟨h1, h2⟩
      simp [createRgbImage_ok r g b h1 h2, Except.isOk, Except.toBool]
  · intro h
    by_cases h1 : r.length = g.length
    · by_cases h2 : g.length = b.length
      · exact absurd ⟨h1, h2⟩ h
      · simp [createRgbImage, h1, h2]
    · simp [createRgbImage, h1]

/-- C2: the interleaved RGB stream places group-channel `c`'s sample `i` at
position `3*i + c`, and de-interleaving (every third byte at offsets 0, 1, 2)
recovers the three original channel buffers exactly. -/
theorem C2_interleave_roundtrip (r g b : List Nat) (h1 : r.length = g.length)
    (h2 : g.length = b.length) :
    createRgbImage r g b = .ok (interleave3 r g b) ∧
    (∀ i, (interleave3 r g b)[3 * i]? = r[i]? ∧ (interleave3 r g b)[3 * i + 1]? = g[i]? ∧
      (interleave3 r g b)[3 * i + 2]? = b[i]?) ∧
    stride3 (interleave3 r g b) = r ∧
    stride3 ((interleave3 r g b).drop 1) = g ∧
    stride3 ((interleave3 r g b).drop 2) = b :=
  ⟨createRgbImage_ok r g b h1 h2, interleave3_getElem r g b h1 h2,
    stride3_interleave_r r g b h1 h2, stride3_interleave_g r g b h1 h2,
    stride3_interleave_b r g b h1 h2⟩

theorem C2_interleave_roundtrip_witness :
    [10, 11].length = [20, 21].length ∧ [20, 21].length = [30, 31].length ∧
    (createRgbImage [10, 11] [20, 21] [30, 31] =
        .ok (interleave3 [10, 11] [20, 21] [30, 31]) ∧
      (∀ i, (interleave3 [10, 11] [20, 21] [30, 31])[3 * i]? = [10, 11][i]? ∧
        (interleave3 [10, 11] [20, 21] [30, 31])[3 * i + 1]? = [20, 21][i]? ∧
        (interleave3 [10, 11] [20, 21] [30, 31])[3 * i + 2]? = [30, 31][i]?) ∧
      stride3 (interleave3 [10, 11] [20, 21] [30, 31]) = [10, 11] ∧
      stride3 ((interleave3 [10, 11] [20, 21] [30, 31]).drop 1) = [20, 21] ∧
      stride3 ((interleave3 [10, 11] [20, 21] [30, 31]).drop 2) = [30, 31]) :=
  ⟨rfl, rfl, C2_interleave_roundtrip [10, 11] [20, 21] [30, 31] rfl rfl⟩

/-! ### Timestamp formatting lemmas -/

lemma asciiDigits_length_four {n : Nat} (h1 : 1000 ≤ n) (h2 : n ≤ 9999) :
    (asciiDigits n).length = 4 := by
  unfold asciiDigits
  rw [List.length_map, List.length_reverse, Nat.digits_len 10 n (by norm_num) (by omega)]
  have hlog : Nat.log 10 n = 3 :=
    Nat.log_eq_of_pow_le_of_lt_pow (by norm_num; omega) (by norm_num; omega)
  omega

lemma pad2_length {n : Nat} (h : n ≤ 99) : (pad2 n).length = 2 := by
  unfold pad2
  by_cases hn : n < 10
  · simp [hn]
  · simp only [hn, if_false]
    unfold asciiDigits
    rw [List.length_map, List.length_reverse, Nat.digits_len 10 n (by norm_num) (by omega)]
    have hlog : Nat.log 10 n = 1 :=
      Nat.log_eq_of_pow_le_of_lt_pow (by norm_num; omega) (by norm_num; omega)
    omega

lemma formatTs_length {t : Ts} (h : ValidTs t) : (formatTs t).length = 19 := by
  obtain ⟨h1, h2, h3, h4, h5, h6, h7⟩ := h
  simp [formatTs, List.length_append, asciiDigits_length_four h1 h2,
    pad2_length h3, pad2_length h4, pad2_length h5, pad2_length h6, pad2_length h7]

lemma asciiDigits_ascii (n : Nat) : ∀ c ∈ asciiDigits n, c < 128 := by
  intro c hc
  unfold asciiDigits at hc
  simp only [List.mem_map, List.mem_reverse] at hc
  obtain ⟨d, hd, rfl⟩ := hc
  have := Nat.digits_lt_base (by norm_num) hd
  omega

lemma pad2_ascii (n : Nat) : ∀ c ∈ pad2 n, c < 128 := by
  intro c hc
  unfold pad2 at hc
  by_cases hn : n < 10
  · simp [hn] at hc
    rcases hc with rfl | rfl <;> omega
  · simp only [hn, if_false] at hc
    exact asciiDigits_ascii n c hc

lemma formatTs_ascii (t : Ts) : ∀ c ∈ formatTs t, c < 128 := by
  unfold formatTs
  simp only [List.forall_mem_append, List.forall_mem_singleton]
  exact ⟨⟨⟨⟨⟨⟨⟨⟨⟨⟨asciiDigits_ascii t.year, by norm_num⟩, pad2_ascii t.month⟩,
    by norm_num⟩, pad2_ascii t.day⟩, by norm_num⟩, pad2_ascii t.hour⟩, by norm_num⟩,
    pad2_ascii t.minute⟩, by norm_num⟩, pad2_ascii t.second⟩

/-! ### Dictionary and channel lemmas -/

lemma downloadDict_mem {dl : List DRecord} {l : Label} {d : DRecord}
    (h : downloadDict dl l = some d) : d ∈ dl ∧ d.data.isSome = true ∧ d.label = l := by
  unfold downloadDict at h
  have hmem := List.mem_of_find?_eq_some h
  have hp := List.find?_some h
  rw [List.mem_reverse] at hmem
  unfold successful at hmem
  rw [List.mem_filter] at hmem
  exact ⟨hmem.1, hmem.2, by simpa using hp⟩

lemma channelData_length (ts : Ts) (dl : List DRecord) (l : Label)
    (hlen : ∀ d ∈ dl, ∀ buf, d.data = some buf → buf.length = 2048 * 2048) :
    (channelData ts dl l).length = 2048 * 2048 := by
  unfold channelData
  cases hdict : downloadDict dl l with
  | none =>
    simp only [Option.getD_none, recData, fallbackRecord, Option.getD_some,
      List.length_replicate]
  | some d =>
    obtain ⟨hmem, hsome, -⟩ := downloadDict_mem hdict
    obtain ⟨buf, hbuf⟩ := Option.isSome_iff_exists.mp hsome
    simp only [Option.getD_some, recData, hbuf]
    exact hlen d hmem buf hbuf

lemma createContainerFile_eq_channels (ts : Ts) (dl : List DRecord) :
    createContainerFile ts dl =
      match createRgbImage (channelData ts dl .w131) (channelData ts dl .w171)
          (channelData ts dl .w193) with
      | .error e => .error e
      | .ok rgb0 =>
        match createRgbImage (channelData ts dl .w304) (channelData ts dl .w1700)
            (channelData ts dl .hmi) with
        | .error e => .error e
        | .ok rgb1 => .ok (containerBytes ts rgb0 rgb1) := rfl

lemma containerBytes_length (ts : Ts) (rgb0 rgb1 : List Nat)
    (hts : (formatTs ts).length = 19) (h0 : rgb0.length = 2048 * 2048 * 3)
    (h1 : rgb1.length = 2048 * 2048 * 3) :
    (containerBytes ts rgb0 rgb1).length = 25165852 := by
  simp [containerBytes, List.length_append, hts, le16, h0, h1]

/-- C1 (amended): with all six channel buffers of length 2048*2048, the artifact
is one version byte 2, the 19-byte ASCII timestamp, then two composites each of
a little-endian uint16 width 2048, height 2048 and 2048*2048*3 RGB bytes, for a
total of 1 + 19 + 2*(4 + 2048*2048*3) = 25,165,852 bytes.  (The claim's figure
25,172,244 does not equal its own formula; see the counterexample.) -/
theorem C1_container_layout (ts : Ts) (dl : List DRecord) (hts : ValidTs ts)
    (hlen : ∀ d ∈ dl, ∀ buf, d.data = some buf → buf.length = 2048 * 2048) :
    ∃ rgb0 rgb1 : List Nat,
      createContainerFile ts dl =
        .ok ([2] ++ formatTs ts ++ (le16 2048 ++ le16 2048 ++ rgb0) ++
          (le16 2048 ++ le16 2048 ++ rgb1)) ∧
      le16 2048 = [0, 8] ∧
      (formatTs ts).length = 19 ∧ (∀ c ∈ formatTs ts, c < 128) ∧
      rgb0.length = 2048 * 2048 * 3 ∧ rgb1.length = 2048 * 2048 * 3 ∧
      ([2] ++ formatTs ts ++ (le16 2048 ++ le16 2048 ++ rgb0) ++
        (le16 2048 ++ le16 2048 ++ rgb1)).length = 1 + 19 + 2 * (4 + 2048 * 2048 * 3) ∧
      1 + 19 + 2 * (4 + 2048 * 2048 * 3) = 25165852 := by
  have e0 := channelData_length ts dl Label.w131 hlen
  have e1 := channelData_length ts dl Label.w171 hlen
  have e2 := channelData_length ts dl Label.w193 hlen
  have e3 := channelData_length ts dl Label.w304 hlen
  have e4 := channelData_length ts dl Label.w1700 hlen
  have e5 := channelData_length ts dl Label.hmi hlen
  have hok0 := createRgbImage_ok (channelData ts dl .w131) (channelData ts dl .w171)
    (channelData ts dl .w193) (by rw [e0, e1]) (by rw [e1, e2])
  have hok1 := createRgbImage_ok (channelData ts dl .w304) (channelData ts dl .w1700)
    (channelData ts dl .hmi) (by rw [e3, e4]) (by rw [e4, e5])
  have hil0 : (interleave3 (channelData ts dl .w131) (channelData ts dl .w171)
      (channelData ts dl .w193)).length = 2048 * 2048 * 3 := by
    rw [interleave3_length _ _ _ (by rw [e0, e1]) (by rw [e1, e2]), e0]
  have hil1 : (interleave3 (channelData ts dl .w304) (channelData ts dl .w1700)
      (channelData ts dl .hmi)).length = 2048 * 2048 * 3 := by
    rw [interleave3_length _ _ _ (by rw [e3, e4]) (by rw [e4, e5]), e3]
  refine ⟨_, _, ?_, rfl, formatTs_length hts, formatTs_ascii ts, hil0, hil1, ?_, by norm_num⟩
  · rw [createContainerFile_eq_channels, hok0, hok1]
    rfl
  · simp [List.length_append, formatTs_length hts, le16, hil0, hil1]

theorem C1_container_layout_witness :
    ValidTs ⟨2024, 1, 1, 12, 0, 0⟩ ∧
    (∀ d ∈ ([] : List DRecord), ∀ buf, d.data = some buf → buf.length = 2048 * 2048) ∧
    (∃ rgb0 rgb1 : List Nat,
      createContainerFile ⟨2024, 1, 1, 12, 0, 0⟩ [] =
        .ok ([2] ++ formatTs ⟨2024, 1, 1, 12, 0, 0⟩ ++ (le16 2048 ++ le16 2048 ++ rgb0) ++
          (le16 2048 ++ le16 2048 ++ rgb1)) ∧
      le16 2048 = [0, 8] ∧
      (formatTs ⟨2024, 1, 1, 12, 0, 0⟩).length = 19 ∧
      (∀ c ∈ formatTs ⟨2024, 1, 1, 12, 0, 0⟩, c < 128) ∧
      rgb0.length = 2048 * 2048 * 3 ∧ rgb1.length = 2048 * 2048 * 3 ∧
      ([2] ++ formatTs ⟨2024, 1, 1, 12, 0, 0⟩ ++ (le16 2048 ++ le16 2048 ++ rgb0) ++
        (le16 2048 ++ le16 2048 ++ rgb1)).length = 1 + 19 + 2 * (4 + 2048 * 2048 * 3) ∧
      1 + 19 + 2 * (4 + 2048 * 2048 * 3) = 25165852) :=
  ⟨by decide, by simp, C1_container_layout ⟨2024, 1, 1, 12, 0, 0⟩ [] (by decide) (by simp)⟩

/-- C1 counterexample: on a run with reference timestamp 2024-01-01 12:00:00 and
all six channels at their (zero-filled) 2048*2048 size, the artifact's byte count
is not the 25,172,244 the claim states: the claim's own formula
1 + 19 + 2*(4 + 2048*2048*3) evaluates to 25,165,852. -/
theorem C1_total_size_counterexample :
    ∃ bytes, createContainerFile ⟨2024, 1, 1, 12, 0, 0⟩ [] = .ok bytes ∧
      bytes.length = 25165852 ∧ bytes.length ≠ 25172244 := by
  have hlen : ∀ d ∈ ([] : List DRecord), ∀ buf, d.data = some buf →
      buf.length = 2048 * 2048 := by simp
  have e0 := channelData_length ⟨2024, 1, 1, 12, 0, 0⟩ [] Label.w131 hlen
  have e1 := channelData_length ⟨2024, 1, 1, 12, 0, 0⟩ [] Label.w171 hlen
  have e2 := channelData_length ⟨2024, 1, 1, 12, 0, 0⟩ [] Label.w193 hlen
  have e3 := channelData_length ⟨2024, 1, 1, 12, 0, 0⟩ [] Label.w304 hlen
  have e4 := channelData_length ⟨2024, 1, 1, 12, 0, 0⟩ [] Label.w1700 hlen
  have e5 := channelData_length ⟨2024, 1, 1, 12, 0, 0⟩ [] Label.hmi hlen
  have hok0 := createRgbImage_ok (channelData ⟨2024, 1, 1, 12, 0, 0⟩ [] .w131)
    (channelData ⟨2024, 1, 1, 12, 0, 0⟩ [] .w171) (channelData ⟨2024, 1, 1, 12, 0, 0⟩ [] .w193)
    (by rw [e0, e1]) (by rw [e1, e2])
  have hok1 := createRgbImage_ok (channelData ⟨2024, 1, 1, 12, 0, 0⟩ [] .w304)
    (channelData ⟨2024, 1, 1, 12, 0, 0⟩ [] .w1700) (channelData ⟨2024, 1, 1, 12, 0, 0⟩ [] .hmi)
    (by rw [e3, e4]) (by rw [e4, e5])
  have hil0 := interleave3_length (channelData ⟨2024, 1, 1, 12, 0, 0⟩ [] .w131)
    (channelData ⟨2024, 1, 1, 12, 0, 0⟩ [] .w171) (channelData ⟨2024, 1, 1, 12, 0, 0⟩ [] .w193)
    (by rw [e0, e1]) (by rw [e1, e2])
  have hil1 := interleave3_length (channelData ⟨2024, 1, 1, 12, 0, 0⟩ [] .w304)
    (channelData ⟨2024, 1, 1, 12, 0, 0⟩ [] .w1700) (channelData ⟨2024, 1, 1, 12, 0, 0⟩ [] .hmi)
    (by rw [e3, e4]) (by rw [e4, e5])
  have hts : (formatTs ⟨2024, 1, 1, 12, 0, 0⟩).length = 19 := formatTs_length (by decide)
  have hmain : createContainerFile ⟨2024, 1, 1, 12, 0, 0⟩ [] =
      .ok (containerBytes ⟨2024, 1, 1, 12, 0, 0⟩
        (interleave3 (channelData ⟨2024, 1, 1, 12, 0, 0⟩ [] .w131)
          (channelData ⟨2024, 1, 1, 12, 0, 0⟩ [] .w171)
          (channelData ⟨2024, 1, 1, 12, 0, 0⟩ [] .w193))
        (interleave3 (channelData ⟨2024, 1, 1, 12, 0, 0⟩ [] .w304)
          (channelData ⟨2024, 1, 1, 12, 0, 0⟩ [] .w1700)
          (channelData ⟨2024, 1, 1, 12, 0, 0⟩ [] .hmi))) := by
    rw [createContainerFile_eq_channels, hok0, hok1]
  have hil0' : (interleave3 (channelData ⟨2024, 1, 1, 12, 0, 0⟩ [] .w131)
      (channelData ⟨2024, 1, 1, 12, 0, 0⟩ [] .w171)
      (channelData ⟨2024, 1, 1, 12, 0, 0⟩ [] .w193)).length = 2048 * 2048 * 3 := by
    rw [hil0, e0]
  have hil1' : (interleave3 (channelData ⟨2024, 1, 1, 12, 0, 0⟩ [] .w304)
      (channelData ⟨2024, 1, 1, 12, 0, 0⟩ [] .w1700)
      (channelData ⟨2024, 1, 1, 12, 0, 0⟩ [] .hmi)).length = 2048 * 2048 * 3 := by
    rw [hil1, e3]
  have hclen := containerBytes_length ⟨2024, 1, 1, 12, 0, 0⟩ _ _ hts hil0' hil1'
  refine ⟨_, hmain, hclen, ?_⟩
  rw [hclen]
  omega

/-! ### Assembly: one record per label, order fixed by the label list -/

lemma mem_successful_reverse {dl : List DRecord} {d : DRecord} :
    d ∈ (successful dl).reverse ↔ d ∈ dl ∧ d.data.isSome = true := by
  rw [List.mem_reverse]
  unfold successful
  rw [List.mem_filter]

lemma downloadDict_eq_some (dl : List DRecord) (d : DRecord)
    (huniq : ∀ d1 ∈ dl, ∀ d2 ∈ dl, d1.data.isSome = true → d2.data.isSome = true →
      d1.label = d2.label → d1 = d2)
    (hmem : d ∈ dl) (hsome : d.data.isSome = true) : downloadDict dl d.label = some d := by
  cases hfind : downloadDict dl d.label with
  | none =>
    unfold downloadDict at hfind
    rw [List.find?_eq_none] at hfind
    have := hfind d (mem_successful_reverse.mpr ⟨hmem, hsome⟩)
    simp at this
  | some r =>
    obtain ⟨hr, hrs, hrl⟩ := downloadDict_mem hfind
    exact congrArg some (huniq r hr d hmem hrs hsome hrl)

lemma downloadDict_eq_none (dl : List DRecord) (l : Label)
    (h : ∀ d ∈ dl, d.data.isSome = true → d.label ≠ l) : downloadDict dl l = none := by
  unfold downloadDict
  rw [List.find?_eq_none]
  intro x hx
  obtain ⟨hx1, hx2⟩ := mem_successful_reverse.mp hx
  simpa using h x hx1 hx2

lemma label_mem_wavelengthOrder (l : Label) : l ∈ wavelengthOrder := by
  cases l <;> simp [wavelengthOrder]

/-- C3: the assembled list has exactly one record per label in the fixed order
[131, 171, 193, 304, 1700, HMI] — no duplicates, no gaps; a label with a
successful record keeps that record, any other label gets the zero-filled
2048x2048 fallback stamped with the reference timestamp; and the result is
unchanged under any permutation (completion order) of the input list. -/
theorem C3_ordered_assembly (ts : Ts) (dl : List DRecord)
    (huniq : ∀ d1 ∈ dl, ∀ d2 ∈ dl, d1.data.isSome = true → d2.data.isSome = true →
      d1.label = d2.label → d1 = d2) :
    (orderedDownloads ts dl).length = 6 ∧
    (orderedDownloads ts dl).map (fun d => d.label) = wavelengthOrder ∧
    wavelengthOrder.Nodup ∧
    (∀ d ∈ dl, d.data.isSome = true →
      downloadDict dl d.label = some d ∧ d ∈ orderedDownloads ts dl) ∧
    (∀ l : Label, (∀ d ∈ dl, d.data.isSome = true → d.label ≠ l) →
      fallbackRecord ts l ∈ orderedDownloads ts dl ∧
      (fallbackRecord ts l).data = some (List.replicate (2048 * 2048) 0) ∧
      (fallbackRecord ts l).ts = ts ∧ (fallbackRecord ts l).label = l) ∧
    (∀ dl' : List DRecord, dl.Perm dl' → orderedDownloads ts dl' = orderedDownloads ts dl) := by
  have hlabel : ∀ l, ((downloadDict dl l).getD (fallbackRecord ts l)).label = l := by
    intro l
    cases hd : downloadDict dl l with
    | none => rfl
    | some r => simpa using (downloadDict_mem hd).2.2
  refine ⟨rfl, ?_, by decide, ?_, ?_, ?_⟩
  · unfold orderedDownloads
    rw [List.map_map]
    have : ∀ l ∈ wavelengthOrder,
        ((fun d => d.label) ∘ fun l => (downloadDict dl l).getD (fallbackRecord ts l)) l = id l :=
      fun l _ => hlabel l
    rw [List.map_congr_left this, List.map_id]
  · intro d hmem hsome
    refine ⟨downloadDict_eq_some dl d huniq hmem hsome, ?_⟩
    unfold orderedDownloads
    refine List.mem_map.mpr ⟨d.label, label_mem_wavelengthOrder d.label, ?_⟩
    rw [downloadDict_eq_some dl d huniq hmem hsome]
    rfl
  · intro l hnone
    refine ⟨?_, rfl, rfl, rfl⟩
    unfold orderedDownloads
    refine List.mem_map.mpr ⟨l, label_mem_wavelengthOrder l, ?_⟩
    rw [downloadDict_eq_none dl l hnone]
    rfl
  · intro dl' hperm
    unfold orderedDownloads
    have hdicts : ∀ l, downloadDict dl' l = downloadDict dl l := by
      intro l
      by_cases hex : ∃ d ∈ dl, d.data.isSome = true ∧ d.label = l
      · obtain ⟨d, hd, hs, rfl⟩ := hex
        have huniq' : ∀ d1 ∈ dl', ∀ d2 ∈ dl', d1.data.isSome = true → d2.data.isSome = true →
            d1.label = d2.label → d1 = d2 := fun d1 h1 d2 h2 =>
          huniq d1 (hperm.mem_iff.mpr h1) d2 (hperm.mem_iff.mpr h2)
        rw [downloadDict_eq_some dl d huniq hd hs,
          downloadDict_eq_some dl' d huniq' (hperm.subset hd) hs]
      · push_neg at hex
        rw [downloadDict_eq_none dl l (fun d hd hs => hex d hd hs),
          downloadDict_eq_none dl' l (fun d hd hs => hex d (hperm.mem_iff.mpr hd) hs)]
    simp only [hdicts]

theorem C3_ordered_assembly_witness :
    (∀ d1 ∈ [(⟨some [1], ⟨2024, 1, 1, 0, 0, 0⟩, Label.w171, 1, 1⟩ : DRecord)],
      ∀ d2 ∈ [(⟨some [1], ⟨2024, 1, 1, 0, 0, 0⟩, Label.w171, 1, 1⟩ : DRecord)],
      d1.data.isSome = true → d2.data.isSome = true → d1.label = d2.label → d1 = d2) ∧
    ((orderedDownloads ⟨2024, 1, 1, 0, 0, 0⟩
        [⟨some [1], ⟨2024, 1, 1, 0, 0, 0⟩, Label.w171, 1, 1⟩]).length = 6 ∧
      (orderedDownloads ⟨2024, 1, 1, 0, 0, 0⟩
        [⟨some [1], ⟨2024, 1, 1, 0, 0, 0⟩, Label.w171, 1, 1⟩]).map (fun d => d.label) =
          wavelengthOrder ∧
      wavelengthOrder.Nodup ∧
      (∀ d ∈ [(⟨some [1], ⟨2024, 1, 1, 0, 0, 0⟩, Label.w171, 1, 1⟩ : DRecord)],
        d.data.isSome = true →
        downloadDict [⟨some [1], ⟨2024, 1, 1, 0, 0, 0⟩, Label.w171, 1, 1⟩] d.label = some d ∧
        d ∈ orderedDownloads ⟨2024, 1, 1, 0, 0, 0⟩
          [⟨some [1], ⟨2024, 1, 1, 0, 0, 0⟩, Label.w171, 1, 1⟩]) ∧
      (∀ l : Label,
        (∀ d ∈ [(⟨some [1], ⟨2024, 1, 1, 0, 0, 0⟩, Label.w171, 1, 1⟩ : DRecord)],
          d.data.isSome = true → d.label ≠ l) →
        fallbackRecord ⟨2024, 1, 1, 0, 0, 0⟩ l ∈ orderedDownloads ⟨2024, 1, 1, 0, 0, 0⟩
          [⟨some [1], ⟨2024, 1, 1, 0, 0, 0⟩, Label.w171, 1, 1⟩] ∧
        (fallbackRecord ⟨2024, 1, 1, 0, 0, 0⟩ l).data =
          some (List.replicate (2048 * 2048) 0) ∧
        (fallbackRecord ⟨2024, 1, 1, 0, 0, 0⟩ l).ts = ⟨2024, 1, 1, 0, 0, 0⟩ ∧
        (fallbackRecord ⟨2024, 1, 1, 0, 0, 0⟩ l).label = l) ∧
      (∀ dl' : List DRecord,
        List.Perm [(⟨some [1], ⟨2024, 1, 1, 0, 0, 0⟩, Label.w171, 1, 1⟩ : DRecord)] dl' →
        orderedDownloads ⟨2024, 1, 1, 0, 0, 0⟩ dl' =
          orderedDownloads ⟨2024, 1, 1, 0, 0, 0⟩
            [⟨some [1], ⟨2024, 1, 1, 0, 0, 0⟩, Label.w171, 1, 1⟩])) :=
  ⟨by simp, C3_ordered_assembly ⟨2024, 1, 1, 0, 0, 0⟩
    [⟨some [1], ⟨2024, 1, 1, 0, 0, 0⟩, Label.w171, 1, 1⟩] (by simp)⟩

/-! ### Noninterference of the artifact with everything but successful (label, data) pairs -/

lemma hasSucc_of_dict {dl : List DRecord} {l : Label} {r : DRecord}
    (h : downloadDict dl l = some r) : ∃ buf, r.data = some buf ∧ HasSucc dl l buf := by
  obtain ⟨hmem, hsome, hlab⟩ := downloadDict_mem h
  obtain ⟨buf, hbuf⟩ := Option.isSome_iff_exists.mp hsome
  exact ⟨buf, hbuf, r, hmem, hlab, hbuf⟩

lemma dict_isSome_of_hasSucc {dl : List DRecord} {l : Label} {buf : List Nat}
    (h : HasSucc dl l buf) : ∃ r, downloadDict dl l = some r := by
  obtain ⟨d, hmem, hlab, hdata⟩ := h
  cases hfind : downloadDict dl l with
  | none =>
    unfold downloadDict at hfind
    rw [List.find?_eq_none] at hfind
    have := hfind d (mem_successful_reverse.mpr ⟨hmem, by simp [hdata]⟩)
    simp [hlab] at this
  | some r => exact ⟨r, rfl⟩

lemma channelData_congr (ts : Ts) (dl1 dl2 : List DRecord) (l : Label)
    (huniq : ∀ d d', HasSucc dl1 l d → HasSucc dl1 l d' → d = d')
    (hagree : ∀ d, HasSucc dl1 l d ↔ HasSucc dl2 l d) :
    channelData ts dl1 l = channelData ts dl2 l := by
  unfold channelData
  cases h1 : downloadDict dl1 l with
  | none =>
    cases h2 : downloadDict dl2 l with
    | none => rfl
    | some r2 =>
      obtain ⟨buf, hbuf, hsucc2⟩ := hasSucc_of_dict h2
      obtain ⟨r1, h1s⟩ := dict_isSome_of_hasSucc ((hagree buf).mpr hsucc2)
      rw [h1] at h1s
      exact absurd h1s (by simp)
  | some r1 =>
    obtain ⟨buf1, hbuf1, hsucc1⟩ := hasSucc_of_dict h1
    cases h2 : downloadDict dl2 l with
    | none =>
      obtain ⟨r2, h2s⟩ := dict_isSome_of_hasSucc ((hagree buf1).mp hsucc1)
      rw [h2] at h2s
      exact absurd h2s (by simp)
    | some r2 =>
      obtain ⟨buf2, hbuf2, hsucc2⟩ := hasSucc_of_dict h2
      have hbe : buf1 = buf2 := huniq buf1 buf2 hsucc1 ((hagree buf2).mpr hsucc2)
      simp only [Option.getD_some, recData, hbuf1, hbuf2, hbe]

/-- C9: the artifact bytes depend only on the reference timestamp and the
label-to-data mapping of the successful records: two download lists agreeing on
the successful (label, data) pairs yield byte-identical artifacts, regardless of
per-channel timestamps, width/height fields, failed records, and list order. -/
theorem C9_artifact_noninterference (ts : Ts) (dl1 dl2 : List DRecord)
    (huniq : ∀ l d d', HasSucc dl1 l d → HasSucc dl1 l d' → d = d')
    (hagree : ∀ l d, HasSucc dl1 l d ↔ HasSucc dl2 l d) :
    createContainerFile ts dl1 = createContainerFile ts dl2 := by
  have h : ∀ l, channelData ts dl1 l = channelData ts dl2 l := fun l =>
    channelData_congr ts dl1 dl2 l (huniq l) (hagree l)
  rw [createContainerFile_eq_channels, createContainerFile_eq_channels]
  simp only [h]

theorem C9_artifact_noninterference_witness :
    (∀ l d d', HasSucc [(⟨some [7], ⟨2024, 1, 1, 0, 0, 0⟩, Label.w131, 9, 9⟩ : DRecord)] l d →
      HasSucc [(⟨some [7], ⟨2024, 1, 1, 0, 0, 0⟩, Label.w131, 9, 9⟩ : DRecord)] l d' → d = d') ∧
    (∀ l d, HasSucc [(⟨some [7], ⟨2024, 1, 1, 0, 0, 0⟩, Label.w131, 9, 9⟩ : DRecord)] l d ↔
      HasSucc [⟨none, ⟨2030, 12, 31, 23, 59, 59⟩, Label.w1700, 5, 5⟩,
        ⟨some [7], ⟨1999, 6, 6, 6, 6, 6⟩, Label.w131, 2048, 2048⟩] l d) ∧
    createContainerFile ⟨2024, 1, 1, 12, 0, 0⟩
        [⟨some [7], ⟨2024, 1, 1, 0, 0, 0⟩, Label.w131, 9, 9⟩] =
      createContainerFile ⟨2024, 1, 1, 12, 0, 0⟩
        [⟨none, ⟨2030, 12, 31, 23, 59, 59⟩, Label.w1700, 5, 5⟩,
          ⟨some [7], ⟨1999, 6, 6, 6, 6, 6⟩, Label.w131, 2048, 2048⟩] := by
  have huniq : ∀ l d d',
      HasSucc [(⟨some [7], ⟨2024, 1, 1, 0, 0, 0⟩, Label.w131, 9, 9⟩ : DRecord)] l d →
      HasSucc [(⟨some [7], ⟨2024, 1, 1, 0, 0, 0⟩, Label.w131, 9, 9⟩ : DRecord)] l d' →
      d = d' := by
    intro l d d' h1 h2
    obtain ⟨r, hr, -, hd⟩ := h1
    obtain ⟨r', hr', -, hd'⟩ := h2
    simp only [List.mem_singleton] at hr hr'
    subst hr; subst hr'
    simp only [Option.some.injEq] at hd hd'
    rw [← hd, ← hd']
  have hagree : ∀ l d,
      HasSucc [(⟨some [7], ⟨2024, 1, 1, 0, 0, 0⟩, Label.w131, 9, 9⟩ : DRecord)] l d ↔
      HasSucc [⟨none, ⟨2030, 12, 31, 23, 59, 59⟩, Label.w1700, 5, 5⟩,
        ⟨some [7], ⟨1999, 6, 6, 6, 6, 6⟩, Label.w131, 2048, 2048⟩] l d := by
    intro l d
    constructor
    · rintro ⟨r, hr, hlab, hd⟩
      simp only [List.mem_singleton] at hr
      subst hr
      exact ⟨⟨some [7], ⟨1999, 6, 6, 6, 6, 6⟩, Label.w131, 2048, 2048⟩, by simp, hlab, hd⟩
    · rintro ⟨r, hr, hlab, hd⟩
      simp only [List.mem_cons, List.not_mem_nil, or_false] at hr
      rcases hr with rfl | rfl
      · simp at hd
      · exact ⟨⟨some [7], ⟨2024, 1, 1, 0, 0, 0⟩, Label.w131, 9, 9⟩, by simp, hlab, hd⟩
  exact ⟨huniq, hagree, C9_artifact_noninterference ⟨2024, 1, 1, 12, 0, 0⟩ _ _ huniq hagree⟩

/-! ### Error paths: reference failure, mismatch, and the untouched file system -/

lemma createRgbImage_error {r g b : List Nat}
    (h : ¬ (r.length = g.length ∧ g.length = b.length)) :
    createRgbImage r g b = .error "All channels must have the same length" := by
  unfold createRgbImage
  by_cases h1 : r.length = g.length
  · have h2 : g.length ≠ b.length := fun h2 => h ⟨h1, h2⟩
    simp [h1, h2]
  · simp [h1]

lemma createContainerFile_ok (ts : Ts) (dl : List DRecord)
    (hlen : ∀ d ∈ dl, ∀ buf, d.data = some buf → buf.length = 2048 * 2048) :
    ∃ bytes, createContainerFile ts dl = .ok bytes := by
  have e0 := channelData_length ts dl Label.w131 hlen
  have e1 := channelData_length ts dl Label.w171 hlen
  have e2 := channelData_length ts dl Label.w193 hlen
  have e3 := channelData_length ts dl Label.w304 hlen
  have e4 := channelData_length ts dl Label.w1700 hlen
  have e5 := channelData_length ts dl Label.hmi hlen
  have hok0 := createRgbImage_ok (channelData ts dl .w131) (channelData ts dl .w171)
    (channelData ts dl .w193) (by rw [e0, e1]) (by rw [e1, e2])
  have hok1 := createRgbImage_ok (channelData ts dl .w304) (channelData ts dl .w1700)
    (channelData ts dl .hmi) (by rw [e3, e4]) (by rw [e4, e5])
  exact ⟨_, by rw [createContainerFile_eq_channels, hok0, hok1]⟩

/-- C10: the output file is opened only after both composites are built, so on
any error path of the serializer — in particular a channel-length mismatch in
the first group — the file system (any previously existing artifact) is
completely unchanged. -/
theorem C10_no_partial_artifact (ts : Ts) (dl : List DRecord) (fs : FS) :
    (∀ e, (createContainerFileFS ts dl fs).2 = .error e →
      (createContainerFileFS ts dl fs).1 = fs) ∧
    (¬ ((channelData ts dl .w131).length = (channelData ts dl .w171).length ∧
        (channelData ts dl .w171).length = (channelData ts dl .w193).length) →
      (createContainerFileFS ts dl fs).1 = fs ∧
      (createContainerFileFS ts dl fs).2 = .error "All channels must have the same length") := by
  constructor
  · intro e herr
    unfold createContainerFileFS at herr ⊢
    cases h : createContainerFile ts dl with
    | error e2 => rfl
    | ok bytes =>
      rw [h] at herr
      simp at herr
  · intro hmis
    have herr := createRgbImage_error hmis
    have hfile : createContainerFile ts dl = .error "All channels must have the same length" := by
      rw [createContainerFile_eq_channels, herr]
    unfold createContainerFileFS
    rw [hfile]
    exact ⟨rfl, rfl⟩

/-- A download list with a length mismatch inside the first RGB group. -/
def mismatchDl : List DRecord :=
  [⟨some [0], ⟨2024, 1, 1, 0, 0, 0⟩, .w131, 1, 1⟩,
   ⟨some [0, 1], ⟨2024, 1, 1, 0, 0, 0⟩, .w171, 2, 1⟩]

/-- A file system that already holds an artifact and a timestamp file. -/
def prevFs : FS := ⟨some [9], some [8]⟩

theorem C10_no_partial_artifact_witness :
    (¬ ((channelData ⟨2024, 1, 1, 0, 0, 0⟩ mismatchDl .w131).length =
          (channelData ⟨2024, 1, 1, 0, 0, 0⟩ mismatchDl .w171).length ∧
        (channelData ⟨2024, 1, 1, 0, 0, 0⟩ mismatchDl .w171).length =
          (channelData ⟨2024, 1, 1, 0, 0, 0⟩ mismatchDl .w193).length)) ∧
    ((createContainerFileFS ⟨2024, 1, 1, 0, 0, 0⟩ mismatchDl prevFs).1 = prevFs ∧
      (createContainerFileFS ⟨2024, 1, 1, 0, 0, 0⟩ mismatchDl prevFs).2 =
        .error "All channels must have the same length") :=
  ⟨by decide, (C10_no_partial_artifact ⟨2024, 1, 1, 0, 0, 0⟩ mismatchDl prevFs).2 (by decide)⟩

/-- C4: a missing reference acquisition aborts the pipeline with the fatal error
before any file is touched; an auxiliary failure never aborts — the run still
writes the artifact and timestamp file, with the failed label degraded to the
zero-filled fallback. -/
theorem C4_reference_fatal_aux_degraded (fs : FS) (auxDl : List DRecord) :
    (mainModel fs none auxDl = (fs, .error "Failed to download HMI NRT data")) ∧
    (∀ (hdata : List Nat) (hts : Ts) (hw hh : Nat), hdata.length = 2048 * 2048 →
      (∀ d ∈ auxDl, ∀ buf, d.data = some buf → buf.length = 2048 * 2048) →
      ∃ bytes, mainModel fs (some (hdata, hts, hw, hh)) auxDl =
          ({ solarDat := some bytes, timestampTxt := some (formatTs hts) }, .ok ()) ∧
        (∀ l : Label, l ≠ Label.hmi → (∀ d ∈ auxDl, d.data.isSome = true → d.label ≠ l) →
          channelData hts (auxDl ++ [⟨some hdata, hts, .hmi, hw, hh⟩]) l =
            List.replicate (2048 * 2048) 0)) := by
  refine ⟨rfl, ?_⟩
  intro hdata hts hw hh hlenH hlenAux
  have hlenAll : ∀ d ∈ auxDl ++ [(⟨some hdata, hts, .hmi, hw, hh⟩ : DRecord)],
      ∀ buf, d.data = some buf → buf.length = 2048 * 2048 := by
    intro d hd buf hbuf
    rcases List.mem_append.mp hd with h | h
    · exact hlenAux d h buf hbuf
    · simp only [List.mem_singleton] at h
      subst h
      simp only [Option.some.injEq] at hbuf
      rw [← hbuf]
      exact hlenH
  obtain ⟨bytes, hbytes⟩ :=
    createContainerFile_ok hts (auxDl ++ [⟨some hdata, hts, .hmi, hw, hh⟩]) hlenAll
  refine ⟨bytes, ?_, ?_⟩
  · simp only [mainModel, createContainerFileFS, hbytes]
  · intro l hlhmi hnone
    unfold channelData
    rw [downloadDict_eq_none]
    · simp only [Option.getD_none, recData, fallbackRecord, Option.getD_some]
    · intro d hd hs
      rcases List.mem_append.mp hd with h | h
      · exact hnone d h hs
      · simp only [List.mem_singleton] at h
        subst h
        simpa using fun hx => hlhmi hx.symm

theorem C4_reference_fatal_aux_degraded_witness :
    (mainModel ⟨none, none⟩ none [⟨none, ⟨2024, 1, 1, 0, 0, 0⟩, .w131, 0, 0⟩] =
      (⟨none, none⟩, .error "Failed to download HMI NRT data")) ∧
    (List.replicate (2048 * 2048) 0).length = 2048 * 2048 ∧
    (∀ d ∈ [(⟨none, ⟨2024, 1, 1, 0, 0, 0⟩, .w131, 0, 0⟩ : DRecord)],
      ∀ buf, d.data = some buf → buf.length = 2048 * 2048) ∧
    (∃ bytes, mainModel ⟨none, none⟩
        (some (List.replicate (2048 * 2048) 0, ⟨2024, 1, 1, 12, 0, 0⟩, 2048, 2048))
        [⟨none, ⟨2024, 1, 1, 0, 0, 0⟩, .w131, 0, 0⟩] =
        ({ solarDat := some bytes,
           timestampTxt := some (formatTs ⟨2024, 1, 1, 12, 0, 0⟩) }, .ok ()) ∧
      (∀ l : Label, l ≠ Label.hmi →
        (∀ d ∈ [(⟨none, ⟨2024, 1, 1, 0, 0, 0⟩, .w131, 0, 0⟩ : DRecord)],
          d.data.isSome = true → d.label ≠ l) →
        channelData ⟨2024, 1, 1, 12, 0, 0⟩
          ([⟨none, ⟨2024, 1, 1, 0, 0, 0⟩, .w131, 0, 0⟩] ++
            [⟨some (List.replicate (2048 * 2048) 0), ⟨2024, 1, 1, 12, 0, 0⟩, .hmi, 2048, 2048⟩])
          l = List.replicate (2048 * 2048) 0)) :=
  ⟨(C4_reference_fatal_aux_degraded ⟨none, none⟩
      [⟨none, ⟨2024, 1, 1, 0, 0, 0⟩, .w131, 0, 0⟩]).1,
    by rw [List.length_replicate],
    by simp,
    (C4_reference_fatal_aux_degraded ⟨none, none⟩
      [⟨none, ⟨2024, 1, 1, 0, 0, 0⟩, .w131, 0, 0⟩]).2
      (List.replicate (2048 * 2048) 0) ⟨2024, 1, 1, 12, 0, 0⟩ 2048 2048
      (by rw [List.length_replicate]) (by simp)⟩

/-! ### Normalization arithmetic -/

lemma foldl_min_le_init (xs : List ℚ) (a : ℚ) : xs.foldl min a ≤ a := by
  induction xs generalizing a with
  | nil => exact le_rfl
  | cons x xs ih => exact (ih (min a x)).trans (min_le_left a x)

lemma foldl_min_le_mem (xs : List ℚ) (a : ℚ) : ∀ y ∈ xs, xs.foldl min a ≤ y := by
  induction xs generalizing a with
  | nil => simp
  | cons x xs ih =>
    intro y hy
    rcases List.mem_cons.mp hy with rfl | hy
    · exact (foldl_min_le_init xs (min a y)).trans (min_le_right a y)
    · exact ih (min a x) y hy

lemma init_le_foldl_max (xs : List ℚ) (a : ℚ) : a ≤ xs.foldl max a := by
  induction xs generalizing a with
  | nil => exact le_rfl
  | cons x xs ih => exact (le_max_left a x).trans (ih (max a x))

lemma mem_le_foldl_max (xs : List ℚ) (a : ℚ) : ∀ y ∈ xs, y ≤ xs.foldl max a := by
  induction xs generalizing a with
  | nil => simp
  | cons x xs ih =>
    intro y hy
    rcases List.mem_cons.mp hy with rfl | hy
    · exact (le_max_right a y).trans (init_le_foldl_max xs (max a y))
    · exact ih (max a x) y hy

lemma listMin_le {xs : List ℚ} {y : ℚ} (h : y ∈ xs) : listMin xs ≤ y := by
  cases xs with
  | nil => cases h
  | cons x xs =>
    rcases List.mem_cons.mp h with rfl | h
    · exact foldl_min_le_init xs y
    · exact foldl_min_le_mem xs x y h

lemma le_listMax {xs : List ℚ} {y : ℚ} (h : y ∈ xs) : y ≤ listMax xs := by
  cases xs with
  | nil => cases h
  | cons x xs =>
    rcases List.mem_cons.mp h with rfl | h
    · exact init_le_foldl_max xs y
    · exact mem_le_foldl_max xs x y h

lemma nanToNum_nonfinite {v : FVal} (h : v.isFinite = false) : nanToNum v = 0 := by
  cases v <;> simp_all [FVal.isFinite, nanToNum]

lemma normalizeSample_eq_floor {vmin vmax x : ℚ} (hlt : vmin < vmax) (h1 : vmin ≤ x)
    (h2 : x ≤ vmax) :
    normalizeSample vmin vmax x = (⌊(x - vmin) / (vmax - vmin) * 255⌋).toNat := by
  have hdpos : 0 < vmax - vmin := sub_pos.mpr hlt
  have hd : ¬ (vmax - vmin = 0) := ne_of_gt hdpos
  have hq0 : 0 ≤ (x - vmin) / (vmax - vmin) := div_nonneg (by linarith) (le_of_lt hdpos)
  have hq1 : (x - vmin) / (vmax - vmin) ≤ 1 := (div_le_one hdpos).mpr (by linarith)
  simp only [normalizeSample, fdivQ, if_neg hd, fclip01, min_eq_right hq1,
    max_eq_right hq0, fmul255, toU8]

lemma normalizeSample_at_vmin {vmin vmax : ℚ} (hlt : vmin < vmax) :
    normalizeSample vmin vmax vmin = 0 := by
  rw [normalizeSample_eq_floor hlt le_rfl (le_of_lt hlt)]
  simp

lemma normalizeSample_at_vmax {vmin vmax : ℚ} (hlt : vmin < vmax) :
    normalizeSample vmin vmax vmax = 255 := by
  rw [normalizeSample_eq_floor hlt (le_of_lt hlt) le_rfl]
  rw [div_self (ne_of_gt (sub_pos.mpr hlt))]
  norm_num
  decide

lemma normalizeSample_mono {vmin vmax x y : ℚ} (hlt : vmin < vmax) (h1 : vmin ≤ x)
    (hxy : x ≤ y) (h2 : y ≤ vmax) :
    normalizeSample vmin vmax x ≤ normalizeSample vmin vmax y := by
  rw [normalizeSample_eq_floor hlt h1 (hxy.trans h2),
    normalizeSample_eq_floor hlt (h1.trans hxy) h2]
  have hdpos : 0 < vmax - vmin := sub_pos.mpr hlt
  have hle : (x - vmin) / (vmax - vmin) * 255 ≤ (y - vmin) / (vmax - vmin) * 255 :=
    mul_le_mul_of_nonneg_right ((div_le_div_right hdpos).mpr (by linarith)) (by norm_num)
  exact Int.toNat_le_toNat (Int.floor_le_floor hle)

/-- C5: normalization replaces non-finite samples with 0 before the range is
computed (so a non-finite sample forces vmin ≤ 0 ≤ vmax), and each sample maps
to trunc(clamp((x - vmin)/(vmax - vmin), 0, 1) * 255) — floor on this range —
which for vmin < vmax is monotone on [vmin, vmax], sends vmin to 0 and vmax
to 255. -/
theorem C5_normalization (g : List (List FVal)) (hlt : gridVmin g < gridVmax g) :
    (∀ (i j : Nat) (fv : FVal), (g[i]?.bind fun row : List FVal => row[j]?) = some fv →
      ((normalizeGrid g)[i]?.bind fun row : List Nat => row[j]?) =
        some (normalizeSample (gridVmin g) (gridVmax g) (nanToNum fv))) ∧
    ((∃ row ∈ g, ∃ v ∈ row, v.isFinite = false) → gridVmin g ≤ 0 ∧ 0 ≤ gridVmax g) ∧
    (∀ x : ℚ, gridVmin g ≤ x → x ≤ gridVmax g →
      normalizeSample (gridVmin g) (gridVmax g) x =
        (⌊(x - gridVmin g) / (gridVmax g - gridVmin g) * 255⌋).toNat) ∧
    (∀ x y : ℚ, gridVmin g ≤ x → x ≤ y → y ≤ gridVmax g →
      normalizeSample (gridVmin g) (gridVmax g) x ≤
        normalizeSample (gridVmin g) (gridVmax g) y) ∧
    normalizeSample (gridVmin g) (gridVmax g) (gridVmin g) = 0 ∧
    normalizeSample (gridVmin g) (gridVmax g) (gridVmax g) = 255 := by
  refine ⟨?_, ?_, fun x h1 h2 => normalizeSample_eq_floor hlt h1 h2,
    fun x y h1 hxy h2 => normalizeSample_mono hlt h1 hxy h2,
    normalizeSample_at_vmin hlt, normalizeSample_at_vmax hlt⟩
  · intro i j fv h
    cases hi : g[i]? with
    | none => rw [hi] at h; simp at h
    | some row =>
      rw [hi] at h
      simp only [Option.some_bind'] at h
      simp only [normalizeGrid, cleanGrid, List.getElem?_map, hi]
      simp [h]
  · rintro ⟨row, hrow, v, hv, hfin⟩
    have hmem : (0 : ℚ) ∈ (cleanGrid g).flatten := by
      rw [List.mem_flatten]
      refine ⟨row.map nanToNum, ?_, ?_⟩
      · unfold cleanGrid
        exact List.mem_map.mpr ⟨row, hrow, rfl⟩
      · rw [← nanToNum_nonfinite hfin]
        exact List.mem_map.mpr ⟨v, hv, rfl⟩
    exact ⟨listMin_le hmem, le_listMax hmem⟩

theorem C5_normalization_witness :
    gridVmin [[FVal.fin 0, FVal.nan], [FVal.fin 2, FVal.pinf]] <
      gridVmax [[FVal.fin 0, FVal.nan], [FVal.fin 2, FVal.pinf]] ∧
    ((∀ (i j : Nat) (fv : FVal),
      (([[FVal.fin 0, FVal.nan], [FVal.fin 2, FVal.pinf]][i]?).bind
          fun row : List FVal => row[j]?) = some fv →
      ((normalizeGrid [[FVal.fin 0, FVal.nan], [FVal.fin 2, FVal.pinf]])[i]?.bind
          fun row : List Nat => row[j]?) =
        some (normalizeSample (gridVmin [[FVal.fin 0, FVal.nan], [FVal.fin 2, FVal.pinf]])
          (gridVmax [[FVal.fin 0, FVal.nan], [FVal.fin 2, FVal.pinf]]) (nanToNum fv))) ∧
    ((∃ row ∈ [[FVal.fin 0, FVal.nan], [FVal.fin 2, FVal.pinf]], ∃ v ∈ row,
        v.isFinite = false) →
      gridVmin [[FVal.fin 0, FVal.nan], [FVal.fin 2, FVal.pinf]] ≤ 0 ∧
      0 ≤ gridVmax [[FVal.fin 0, FVal.nan], [FVal.fin 2, FVal.pinf]]) ∧
    (∀ x : ℚ, gridVmin [[FVal.fin 0, FVal.nan], [FVal.fin 2, FVal.pinf]] ≤ x →
      x ≤ gridVmax [[FVal.fin 0, FVal.nan], [FVal.fin 2, FVal.pinf]] →
      normalizeSample (gridVmin [[FVal.fin 0, FVal.nan], [FVal.fin 2, FVal.pinf]])
          (gridVmax [[FVal.fin 0, FVal.nan], [FVal.fin 2, FVal.pinf]]) x =
        (⌊(x - gridVmin [[FVal.fin 0, FVal.nan], [FVal.fin 2, FVal.pinf]]) /
            (gridVmax [[FVal.fin 0, FVal.nan], [FVal.fin 2, FVal.pinf]] -
              gridVmin [[FVal.fin 0, FVal.nan], [FVal.fin 2, FVal.pinf]]) * 255⌋).toNat) ∧
    (∀ x y : ℚ, gridVmin [[FVal.fin 0, FVal.nan], [FVal.fin 2, FVal.pinf]] ≤ x → x ≤ y →
      y ≤ gridVmax [[FVal.fin 0, FVal.nan], [FVal.fin 2, FVal.pinf]] →
      normalizeSample (gridVmin [[FVal.fin 0, FVal.nan], [FVal.fin 2, FVal.pinf]])
          (gridVmax [[FVal.fin 0, FVal.nan], [FVal.fin 2, FVal.pinf]]) x ≤
        normalizeSample (gridVmin [[FVal.fin 0, FVal.nan], [FVal.fin 2, FVal.pinf]])
          (gridVmax [[FVal.fin 0, FVal.nan], [FVal.fin 2, FVal.pinf]]) y) ∧
    normalizeSample (gridVmin [[FVal.fin 0, FVal.nan], [FVal.fin 2, FVal.pinf]])
        (gridVmax [[FVal.fin 0, FVal.nan], [FVal.fin 2, FVal.pinf]])
        (gridVmin [[FVal.fin 0, FVal.nan], [FVal.fin 2, FVal.pinf]]) = 0 ∧
    normalizeSample (gridVmin [[FVal.fin 0, FVal.nan], [FVal.fin 2, FVal.pinf]])
        (gridVmax [[FVal.fin 0, FVal.nan], [FVal.fin 2, FVal.pinf]])
        (gridVmax [[FVal.fin 0, FVal.nan], [FVal.fin 2, FVal.pinf]]) = 255) := by
  have hlt : gridVmin [[FVal.fin 0, FVal.nan], [FVal.fin 2, FVal.pinf]] <
      gridVmax [[FVal.fin 0, FVal.nan], [FVal.fin 2, FVal.pinf]] := by
    norm_num [gridVmin, gridVmax, cleanGrid, nanToNum, listMin, listMax, min_def, max_def]
  exact ⟨hlt, C5_normalization [[FVal.fin 0, FVal.nan], [FVal.fin 2, FVal.pinf]] hlt⟩

/-! ### Flat images and the absent mirror -/

/-- C6: a flat image (vmax = vmin) is NOT treated as a normalization failure:
no numpy operation on this path raises (the 0/0 division only emits a warning,
and the program suppresses warnings), so `download_and_process` returns a
normalized record — the NaN samples are cast to 0 — instead of a failed
acquisition. -/
theorem C6_flat_image_not_reported_failed :
    gridVmin [[FVal.fin 5, FVal.fin 5], [FVal.fin 5, FVal.fin 5]] =
      gridVmax [[FVal.fin 5, FVal.fin 5], [FVal.fin 5, FVal.fin 5]] ∧
    (processAux id [[FVal.fin 5, FVal.fin 5], [FVal.fin 5, FVal.fin 5]]).isSome = true ∧
    processAux id [[FVal.fin 5, FVal.fin 5], [FVal.fin 5, FVal.fin 5]] =
      some ([0, 0, 0, 0], 2, 2) := by
  refine ⟨?_, ?_, ?_⟩
  · norm_num [gridVmin, gridVmax, cleanGrid, nanToNum, listMin, listMax, min_def, max_def]
  · norm_num [processAux, cleanGrid, nanToNum]
  · norm_num [processAux, cleanGrid, nanToNum, crop2048, gridFlat, rowWidth, normalizeGrid,
      gridVmin, gridVmax, listMin, listMax, min_def, max_def, normalizeSample, fdivQ,
      fclip01, fmul255, toU8]

lemma gridFlat_inj_of_shape : ∀ g1 g2 : List (List Nat),
    g1.map List.length = g2.map List.length → gridFlat g1 = gridFlat g2 → g1 = g2 := by
  intro g1
  induction g1 with
  | nil =>
    intro g2 hs _
    cases g2 with
    | nil => rfl
    | cons r2 t2 => simp at hs
  | cons r1 t1 ih =>
    intro g2 hs hf
    cases g2 with
    | nil => simp at hs
    | cons r2 t2 =>
      simp only [List.map_cons, List.cons.injEq] at hs
      unfold gridFlat at hf
      simp only [List.flatten_cons] at hf
      obtain ⟨h1, h2⟩ := List.append_inj hf hs.1
      rw [h1, ih t2 hs.2 h2]

/-- C7 (amended): no left-right mirror is applied to the reference channel —
the HMI record's data is the flattened resized grid itself, and whenever the
resized grid differs from its own horizontal reflection, the data differs from
what mirroring would have produced. -/
theorem C7_reference_not_mirrored (resize : List (List Nat) → List (List Nat))
    (g : List (List FVal)) :
    (hmiProcess resize g).1 = gridFlat (crop2048 (resize (hmiNormalize8 g))) ∧
    (crop2048 (resize (hmiNormalize8 g)) ≠ fliplr (crop2048 (resize (hmiNormalize8 g))) →
      (hmiProcess resize g).1 ≠ gridFlat (fliplr (crop2048 (resize (hmiNormalize8 g))))) := by
  refine ⟨rfl, ?_⟩
  intro hne heq
  apply hne
  apply gridFlat_inj_of_shape
  · simp only [fliplr, List.map_map]
    have : List.length ∘ List.reverse = (List.length : List Nat → Nat) := by
      funext l
      simp
    rw [this]
  · exact heq

/-- C7 counterexample: with the 1x2 HMI input [-1500, 1500] (and identity
resize), the record data is [0, 255] — the unmirrored flattening — while the
horizontal reflection of the resized grid flattens to [255, 0]: the data is not
the left-right mirror the claim describes. -/
theorem C7_no_mirror_counterexample :
    (hmiProcess id [[FVal.fin (-1500), FVal.fin 1500]]).1 = [0, 255] ∧
    gridFlat (fliplr (crop2048 (id (hmiNormalize8 [[FVal.fin (-1500), FVal.fin 1500]])))) =
      [255, 0] ∧
    (hmiProcess id [[FVal.fin (-1500), FVal.fin 1500]]).1 ≠
      gridFlat (fliplr (crop2048 (id (hmiNormalize8 [[FVal.fin (-1500), FVal.fin 1500]])))) := by
  refine ⟨?_, ?_, ?_⟩
  · norm_num [hmiProcess, hmiNormalize8, cleanGrid, nanToNum, crop2048, gridFlat,
      normalizeSample, fdivQ, fclip01, fmul255, toU8]
    all_goals decide
  · norm_num [hmiProcess, hmiNormalize8, cleanGrid, nanToNum, crop2048, gridFlat, fliplr,
      normalizeSample, fdivQ, fclip01, fmul255, toU8]
    all_goals decide
  · norm_num [hmiProcess, hmiNormalize8, cleanGrid, nanToNum, crop2048, gridFlat, fliplr,
      normalizeSample, fdivQ, fclip01, fmul255, toU8]

theorem C7_reference_not_mirrored_witness :
    ((hmiProcess id [[FVal.fin (-1500), FVal.fin 1500]]).1 =
      gridFlat (crop2048 (id (hmiNormalize8 [[FVal.fin (-1500), FVal.fin 1500]])))) ∧
    (crop2048 (id (hmiNormalize8 [[FVal.fin (-1500), FVal.fin 1500]])) ≠
      fliplr (crop2048 (id (hmiNormalize8 [[FVal.fin (-1500), FVal.fin 1500]])))) ∧
    ((hmiProcess id [[FVal.fin (-1500), FVal.fin 1500]]).1 ≠
      gridFlat (fliplr (crop2048 (id (hmiNormalize8 [[FVal.fin (-1500), FVal.fin 1500]]))))) := by
  have hne : crop2048 (id (hmiNormalize8 [[FVal.fin (-1500), FVal.fin 1500]])) ≠
      fliplr (crop2048 (id (hmiNormalize8 [[FVal.fin (-1500), FVal.fin 1500]]))) := by
    norm_num [hmiNormalize8, cleanGrid, nanToNum, crop2048, fliplr,
      normalizeSample, fdivQ, fclip01, fmul255, toU8]
  exact ⟨(C7_reference_not_mirrored id [[FVal.fin (-1500), FVal.fin 1500]]).1, hne,
    (C7_reference_not_mirrored id [[FVal.fin (-1500), FVal.fin 1500]]).2 hne⟩

theorem C8_rgb_group_length_check_witness :
    (¬ ([1].length = [2, 3].length ∧ [2, 3].length = ([] : List Nat).length)) ∧
    ((createRgbImage [1] [2, 3] []).isOk = true ↔
      [1].length = [2, 3].length ∧ [2, 3].length = ([] : List Nat).length) ∧
    createRgbImage [1] [2, 3] [] = .error "All channels must have the same length" :=
  ⟨by decide, (C8_rgb_group_length_check [1] [2, 3] []).1,
    (C8_rgb_group_length_check [1] [2, 3] []).2 (by decide)⟩
